import Mathlib

/-!
# Verification of the rpi-temp-controll control core

Shallow embedding of the repository's decision engine
(`controllers/temperature_controller.py`), sensor layer
(`sensors/base.py`, `sensors/ds18b20.py`, `sensors/max31855.py`,
`sensors/sensor_manager.py`) and actuator state machine
(`controllers/sonoff_controller.py`), together with theorems about them.

Temperatures and times are modelled as rationals; Python `Optional`
values become `Option`; the network and the probe hardware are modelled
as explicit oracles passed to each call.
-/

namespace RpiTemp

/-- Membership of one character list as a contiguous segment of another,
Boolean and executable; `pythonIn` below mirrors Python's
`sub in s` substring test used for sensor-id matching. -/
def charsSeg : List Char → List Char → Bool
  | [], _ => true
  | _ :: _, [] => false
  | a :: as, b :: bs => a == b && charsSeg as bs

/-- `sub` occurs contiguously somewhere inside `l`. -/
def charsSomewhere : List Char → List Char → Bool
  | sub, [] => sub.isEmpty
  | sub, c :: cs => charsSeg sub (c :: cs) || charsSomewhere sub cs

/-- Python's `sub in s` on strings. -/
def pythonIn (sub s : String) : Bool :=
  charsSomewhere sub.data s.data

/-- Control thresholds from the `control` section of the configuration
(`TemperatureController.__init__`, temperature_controller.py lines 40-50). -/
structure Cfg where
  boiler_critical_temp : ℚ
  accumulator_critical_temp : ℚ
  boiler_safe_temp : ℚ
  accumulator_safe_temp : ℚ
  chimney_critical_temp : ℚ
  chimney_low_temp : ℚ
  hysteresis : ℚ
  startup_detection_period : ℚ
  startup_temp_increase : ℚ
  deriving Repr

/-- The configuration defaults hard-coded in `TemperatureController.__init__`. -/
def defaultCfg : Cfg :=
  { boiler_critical_temp := 85
    accumulator_critical_temp := 80
    boiler_safe_temp := 70
    accumulator_safe_temp := 65
    chimney_critical_temp := 250
    chimney_low_temp := 100
    hysteresis := 3
    startup_detection_period := 120
    startup_temp_increase := 5 }

/-- A snapshot of `self.last_temperatures`: the ordered dict
`{sensor_id: Optional[float]}` returned by `SensorManager.read_all`. -/
def Temps : Type := List (String × Option ℚ)

/-- `TemperatureController.get_boiler_temp`: value of the first sensor id
containing `"boiler"`, which may itself be `None`. -/
def get_boiler_temp (temps : Temps) : Option ℚ :=
  match temps.find? (fun p => pythonIn "boiler" p.fst) with
  | some p => p.snd
  | none => none

/-- `TemperatureController.get_chimney_temp`: value of the first sensor id
containing `"chimney"`. -/
def get_chimney_temp (temps : Temps) : Option ℚ :=
  match temps.find? (fun p => pythonIn "chimney" p.fst) with
  | some p => p.snd
  | none => none

/-- `TemperatureController.get_accumulator_temps`: scans every entry,
the last id containing `"accumulator_bottom"` sets the bottom value, else
an id containing `"accumulator_top"` sets the top value. -/
def get_accumulator_temps (temps : Temps) : Option ℚ × Option ℚ :=
  temps.foldl
    (fun acc p =>
      if pythonIn "accumulator_bottom" p.fst then (p.snd, acc.snd)
      else if pythonIn "accumulator_top" p.fst then (acc.fst, p.snd)
      else acc)
    (none, none)

/-- `max(t for t in [bottom_temp, top_temp] if t is not None)` guarded by
`bottom is not None or top is not None`, as in `should_turn_on` /
`should_turn_off`. -/
def max_accumulator_temp (temps : Temps) : Option ℚ :=
  match get_accumulator_temps temps with
  | (some b, some t) => some (max b t)
  | (some b, none) => some b
  | (none, some t) => some t
  | (none, none) => none

/-- One entry of `self.temperature_history`:
`(timestamp, boiler_temp, chimney_temp)`. -/
structure Sample where
  t : ℚ
  boiler : Option ℚ
  chimney : Option ℚ
  deriving Repr

/-- Local variable `recent_readings` of `is_startup_period`: history
entries within `startup_detection_period` of `now`. -/
def recentSamples (hist : List Sample) (now : ℚ) (cfg : Cfg) : List Sample :=
  hist.filter (fun r => now - r.t ≤ cfg.startup_detection_period)

/-- `TemperatureController.is_startup_period` (lines 60-106): needs at
least two history entries, keeps those within `startup_detection_period`
of `now`, and requires both the boiler and the chimney reading to rise by
at least `startup_temp_increase` between the first and last kept entry. -/
def is_startup_period (hist : List Sample) (now : ℚ) (cfg : Cfg) : Bool :=
  if hist.length < 2 then false
  else
    let recent := recentSamples hist now cfg
    if recent.length < 2 then false
    else
      match recent.head?, recent.getLast? with
      | some first, some last =>
        (match first.boiler, last.boiler with
         | some fb, some lb => decide (lb - fb ≥ cfg.startup_temp_increase)
         | _, _ => false) &&
        (match first.chimney, last.chimney with
         | some fc, some lc => decide (lc - fc ≥ cfg.startup_temp_increase)
         | _, _ => false)
      | _, _ => false

/-- The chimney turn-on guard of `should_turn_on` / `should_turn_off`:
chimney reading present and `≥ chimney_critical_temp - hysteresis`. -/
def chimneyHot (temps : Temps) (cfg : Cfg) : Bool :=
  match get_chimney_temp temps with
  | some c => decide (c ≥ cfg.chimney_critical_temp - cfg.hysteresis)
  | none => false

/-- The boiler guard of `should_turn_on`: boiler reading present and
`≥ boiler_critical_temp - hysteresis`. -/
def boilerHot (temps : Temps) (cfg : Cfg) : Bool :=
  match get_boiler_temp temps with
  | some b => decide (b ≥ cfg.boiler_critical_temp - cfg.hysteresis)
  | none => false

/-- The accumulator guard of `should_turn_on`: max accumulator reading
present and `≥ accumulator_critical_temp - hysteresis`. -/
def accumulatorHot (temps : Temps) (cfg : Cfg) : Bool :=
  match max_accumulator_temp temps with
  | some a => decide (a ≥ cfg.accumulator_critical_temp - cfg.hysteresis)
  | none => false

/-- `TemperatureController.should_turn_on` (lines 166-199). Note the
source checks `is_startup_period()` first, before the chimney guard. -/
def should_turn_on (hist : List Sample) (now : ℚ) (temps : Temps) (cfg : Cfg) :
    Bool × Option String :=
  if is_startup_period hist now cfg then (true, some "startup")
  else if chimneyHot temps cfg then (true, some "chimney_critical")
  else if boilerHot temps cfg then (true, some "boiler_critical")
  else if accumulatorHot temps cfg then (true, some "accumulator_critical")
  else (false, none)

/-- Local variable `boiler_safe` of `should_turn_off`:
`boiler_temp is None or boiler_temp < boiler_safe_temp + hysteresis`. -/
def boilerSafeB (temps : Temps) (cfg : Cfg) : Bool :=
  match get_boiler_temp temps with
  | none => true
  | some b => decide (b < cfg.boiler_safe_temp + cfg.hysteresis)

/-- Local variable `accumulator_safe` of `should_turn_off`. -/
def accumulatorSafeB (temps : Temps) (cfg : Cfg) : Bool :=
  match max_accumulator_temp temps with
  | none => true
  | some a => decide (a < cfg.accumulator_safe_temp + cfg.hysteresis)

/-- Local variable `chimney_low` of `should_turn_off`. -/
def chimneyLowB (temps : Temps) (cfg : Cfg) : Bool :=
  match get_chimney_temp temps with
  | none => true
  | some c => decide (c < cfg.chimney_low_temp)

/-- `TemperatureController.should_turn_off` (lines 201-228). -/
def should_turn_off (temps : Temps) (cfg : Cfg) : Bool × Option String :=
  if chimneyHot temps cfg then (false, none)
  else if boilerSafeB temps cfg && accumulatorSafeB temps cfg && chimneyLowB temps cfg then
    (true, some "safe_temperatures")
  else (false, none)

/-- `TemperatureController.update_control` (lines 230-275), abstracted
over the outlet's reported state (`get_status()` result) and the success
of an issued command: first component is the command issued to the
actuator (if any), second is the returned reason. -/
inductive OutletCmd
  | on
  | off
  deriving Repr, DecidableEq

/-- The command-emission logic of `update_control` after the snapshot has
been refreshed: turn on only when `should_turn_on` holds and the reported
state is exactly `False` or `None`; else turn off only when
`should_turn_off` holds and the reported state is exactly `True`; the
reason is returned only when the issued command reports success. -/
def update_control (hist : List Sample) (now : ℚ) (temps : Temps) (cfg : Cfg)
    (current_state : Option Bool) (cmdOk : OutletCmd → Bool) :
    Option OutletCmd × Option String :=
  let so := should_turn_on hist now temps cfg
  let sf := should_turn_off temps cfg
  if so.fst && (current_state == some false || current_state == none) then
    (some OutletCmd.on, if cmdOk OutletCmd.on then so.snd else none)
  else if sf.fst && (current_state == some true) then
    (some OutletCmd.off, if cmdOk OutletCmd.off then sf.snd else none)
  else (none, none)

/-! ## Specification-level predicates for the decision engine

These restate the spec's turn-on/turn-off conditions as propositions,
independently of the Boolean guards compiled from the source; the
theorems connect the two. -/

/-- Spec: chimney reading present and at/above `chimney_critical − hysteresis`. -/
def ChimneyCond (temps : Temps) (cfg : Cfg) : Prop :=
  ∃ c, get_chimney_temp temps = some c ∧
    cfg.chimney_critical_temp - cfg.hysteresis ≤ c

/-- Spec: boiler reading present and at/above `boiler_critical − hysteresis`. -/
def BoilerCond (temps : Temps) (cfg : Cfg) : Prop :=
  ∃ b, get_boiler_temp temps = some b ∧
    cfg.boiler_critical_temp - cfg.hysteresis ≤ b

/-- Spec: max accumulator reading present and at/above
`accumulator_critical − hysteresis`. -/
def AccumulatorCond (temps : Temps) (cfg : Cfg) : Prop :=
  ∃ a, max_accumulator_temp temps = some a ∧
    cfg.accumulator_critical_temp - cfg.hysteresis ≤ a

/-- Spec: boiler absent or below `boiler_safe + hysteresis`
(vacuously true when absent). -/
def BoilerSafeCond (temps : Temps) (cfg : Cfg) : Prop :=
  ∀ b, get_boiler_temp temps = some b → b < cfg.boiler_safe_temp + cfg.hysteresis

/-- Spec: max accumulator absent or below `accumulator_safe + hysteresis`. -/
def AccumulatorSafeCond (temps : Temps) (cfg : Cfg) : Prop :=
  ∀ a, max_accumulator_temp temps = some a →
    a < cfg.accumulator_safe_temp + cfg.hysteresis

/-- Spec: chimney absent or below `chimney_low`. -/
def ChimneyLowCond (temps : Temps) (cfg : Cfg) : Prop :=
  ∀ c, get_chimney_temp temps = some c → c < cfg.chimney_low_temp

theorem chimneyHot_iff (temps : Temps) (cfg : Cfg) :
    chimneyHot temps cfg = true ↔ ChimneyCond temps cfg := by
  unfold chimneyHot ChimneyCond
  cases h : get_chimney_temp temps <;> simp [ge_iff_le]

theorem boilerHot_iff (temps : Temps) (cfg : Cfg) :
    boilerHot temps cfg = true ↔ BoilerCond temps cfg := by
  unfold boilerHot BoilerCond
  cases h : get_boiler_temp temps <;> simp [ge_iff_le]

theorem accumulatorHot_iff (temps : Temps) (cfg : Cfg) :
    accumulatorHot temps cfg = true ↔ AccumulatorCond temps cfg := by
  unfold accumulatorHot AccumulatorCond
  cases h : max_accumulator_temp temps <;> simp [ge_iff_le]

theorem boilerSafeB_iff (temps : Temps) (cfg : Cfg) :
    boilerSafeB temps cfg = true ↔ BoilerSafeCond temps cfg := by
  unfold boilerSafeB BoilerSafeCond
  cases h : get_boiler_temp temps <;> simp

theorem accumulatorSafeB_iff (temps : Temps) (cfg : Cfg) :
    accumulatorSafeB temps cfg = true ↔ AccumulatorSafeCond temps cfg := by
  unfold accumulatorSafeB AccumulatorSafeCond
  cases h : max_accumulator_temp temps <;> simp

theorem chimneyLowB_iff (temps : Temps) (cfg : Cfg) :
    chimneyLowB temps cfg = true ↔ ChimneyLowCond temps cfg := by
  unfold chimneyLowB ChimneyLowCond
  cases h : get_chimney_temp temps <;> simp

/-! ## Concrete inputs used by the claims' scenarios -/

/-- Snapshot for the priority scenario: chimney 248 °C, boiler 50 °C,
accumulator 40 °C. -/
def prioTemps : Temps :=
  [("max31855_chimney", some 248), ("ds18b20_boiler", some 50),
   ("ds18b20_accumulator_top", some 40)]

/-- History in which both boiler and chimney rose by ≥ 5 °C within 120 s,
while the chimney is also at its critical threshold. -/
def prioHist : List Sample :=
  [⟨0, some 30, some 240⟩, ⟨60, some 40, some 248⟩]

/-- **C1** (counterexample). At a state where startup is detected and the
chimney condition holds simultaneously, `should_turn_on` returns the
reason `startup`, not `chimney_critical`: the claimed chimney-over-startup
priority fails on the code, which tests `is_startup_period()` first. -/
theorem c1_startup_preempts_chimney_counterexample :
    is_startup_period prioHist 60 defaultCfg = true ∧
    chimneyHot prioTemps defaultCfg = true ∧
    should_turn_on prioHist 60 prioTemps defaultCfg = (true, some "startup") ∧
    ¬ should_turn_on prioHist 60 prioTemps defaultCfg
        = (true, some "chimney_critical") := by
  refine ⟨of_decide_eq_true (by with_unfolding_all rfl),
          of_decide_eq_true (by with_unfolding_all rfl),
          of_decide_eq_true (by with_unfolding_all rfl), ?_⟩
  intro h
  have : should_turn_on prioHist 60 prioTemps defaultCfg
      = (true, some "startup") := of_decide_eq_true (by with_unfolding_all rfl)
  rw [this] at h
  simp at h

/-- **C1** (amended). `should_turn_on` evaluates its reasons first-match
in the order: 1) startup detected, 2) chimney ≥ chimney_critical −
hysteresis, 3) boiler ≥ boiler_critical − hysteresis, 4) max accumulator
≥ accumulator_critical − hysteresis; it reports no turn-on exactly when
none of the four conditions holds. In particular the spec's priority
scenario (chimney 248, threshold 247, boiler and accumulator safe, no
startup trend) yields the reason `chimney_critical`. -/
theorem c1_turn_on_first_match (hist : List Sample) (now : ℚ) (temps : Temps)
    (cfg : Cfg) :
    (should_turn_on hist now temps cfg = (true, some "startup") ↔
      is_startup_period hist now cfg = true) ∧
    (should_turn_on hist now temps cfg = (true, some "chimney_critical") ↔
      is_startup_period hist now cfg = false ∧ ChimneyCond temps cfg) ∧
    (should_turn_on hist now temps cfg = (true, some "boiler_critical") ↔
      is_startup_period hist now cfg = false ∧ ¬ ChimneyCond temps cfg ∧
        BoilerCond temps cfg) ∧
    (should_turn_on hist now temps cfg = (true, some "accumulator_critical") ↔
      is_startup_period hist now cfg = false ∧ ¬ ChimneyCond temps cfg ∧
        ¬ BoilerCond temps cfg ∧ AccumulatorCond temps cfg) ∧
    ((should_turn_on hist now temps cfg).fst = false ↔
      is_startup_period hist now cfg = false ∧ ¬ ChimneyCond temps cfg ∧
        ¬ BoilerCond temps cfg ∧ ¬ AccumulatorCond temps cfg) ∧
    should_turn_on [] 0 prioTemps defaultCfg = (true, some "chimney_critical") := by
  have hc := chimneyHot_iff temps cfg
  have hb := boilerHot_iff temps cfg
  have ha := accumulatorHot_iff temps cfg
  refine ⟨?_, ?_, ?_, ?_, ?_,
    of_decide_eq_true (by with_unfolding_all rfl)⟩ <;>
  · unfold should_turn_on
    cases hs : is_startup_period hist now cfg <;>
      cases hch : chimneyHot temps cfg <;>
        cases hbo : boilerHot temps cfg <;>
          cases hac : accumulatorHot temps cfg <;>
            simp_all

/-- **C2**. `should_turn_off` never orders a turn-off while the chimney
condition holds; otherwise it orders a turn-off with reason
`safe_temperatures` exactly when the boiler is absent-or-safe, the max
accumulator is absent-or-safe, and the chimney is absent-or-low. -/
theorem c2_turn_off_characterization (temps : Temps) (cfg : Cfg) :
    (ChimneyCond temps cfg → should_turn_off temps cfg = (false, none)) ∧
    (¬ ChimneyCond temps cfg →
      (should_turn_off temps cfg = (true, some "safe_temperatures") ↔
        BoilerSafeCond temps cfg ∧ AccumulatorSafeCond temps cfg ∧
          ChimneyLowCond temps cfg) ∧
      (¬ (BoilerSafeCond temps cfg ∧ AccumulatorSafeCond temps cfg ∧
            ChimneyLowCond temps cfg) →
        should_turn_off temps cfg = (false, none))) := by
  have hc := chimneyHot_iff temps cfg
  have h1 := boilerSafeB_iff temps cfg
  have h2 := accumulatorSafeB_iff temps cfg
  have h3 := chimneyLowB_iff temps cfg
  unfold should_turn_off
  cases hch : chimneyHot temps cfg <;>
    cases hb : boilerSafeB temps cfg <;>
      cases ha : accumulatorSafeB temps cfg <;>
        cases hl : chimneyLowB temps cfg <;>
          simp_all

/-- **C1** (witness). The amended first-match characterization applied at
the concrete startup-plus-hot-chimney state. -/
theorem c1_turn_on_first_match_witness :
    should_turn_on prioHist 60 prioTemps defaultCfg = (true, some "startup") :=
  (c1_turn_on_first_match prioHist 60 prioTemps defaultCfg).1.mpr
    (of_decide_eq_true (by with_unfolding_all rfl))

/-- Snapshot with every reading in its safe band: boiler 50 °C,
accumulator 40 °C, chimney 60 °C. -/
def safeTemps : Temps :=
  [("ds18b20_boiler", some 50), ("ds18b20_accumulator_top", some 40),
   ("max31855_chimney", some 60)]

/-- **C2** (witness). The turn-off characterization applied at a concrete
all-safe snapshot. -/
theorem c2_turn_off_characterization_witness :
    should_turn_off safeTemps defaultCfg = (true, some "safe_temperatures") := by
  have hch : chimneyHot safeTemps defaultCfg = false :=
    of_decide_eq_true (by with_unfolding_all rfl)
  have hnc : ¬ ChimneyCond safeTemps defaultCfg := fun h => by
    have ht := (chimneyHot_iff safeTemps defaultCfg).mpr h
    rw [hch] at ht
    exact Bool.false_ne_true ht
  exact ((c2_turn_off_characterization safeTemps defaultCfg).2 hnc).1.mpr
    ⟨(boilerSafeB_iff safeTemps defaultCfg).mp
        (of_decide_eq_true (by with_unfolding_all rfl)),
     (accumulatorSafeB_iff safeTemps defaultCfg).mp
        (of_decide_eq_true (by with_unfolding_all rfl)),
     (chimneyLowB_iff safeTemps defaultCfg).mp
        (of_decide_eq_true (by with_unfolding_all rfl))⟩

/-- **C3**. `update_control` issues the turn-on command exactly when a
turn-on condition holds and the reported outlet state is `False` or
`None`; it issues the turn-off command exactly when a turn-off condition
holds and the reported state is exactly `True`; when no command is
issued it returns no reason; and with the reported state already `True`
the on command is never re-issued. -/
theorem c3_update_control_emission (hist : List Sample) (now : ℚ)
    (temps : Temps) (cfg : Cfg) (cs : Option Bool) (cmdOk : OutletCmd → Bool) :
    ((update_control hist now temps cfg cs cmdOk).fst = some OutletCmd.on ↔
      (should_turn_on hist now temps cfg).fst = true ∧
        (cs = some false ∨ cs = none)) ∧
    ((update_control hist now temps cfg cs cmdOk).fst = some OutletCmd.off ↔
      (should_turn_off temps cfg).fst = true ∧ cs = some true) ∧
    ((update_control hist now temps cfg cs cmdOk).fst = none →
      (update_control hist now temps cfg cs cmdOk).snd = none) ∧
    (cs = some true →
      (update_control hist now temps cfg cs cmdOk).fst ≠ some OutletCmd.on) := by
  unfold update_control
  rcases cs with _ | b
  · cases hso : (should_turn_on hist now temps cfg).fst <;>
      cases hsf : (should_turn_off temps cfg).fst <;> simp_all
  · cases b <;>
      cases hso : (should_turn_on hist now temps cfg).fst <;>
        cases hsf : (should_turn_off temps cfg).fst <;> simp_all

/-- **C3** (witness). At the all-safe snapshot with the outlet reported
on, the turn-off command is issued, and the on command is not re-issued. -/
theorem c3_update_control_emission_witness :
    (update_control [] 0 safeTemps defaultCfg (some true) (fun _ => true)).fst
      = some OutletCmd.off ∧
    (update_control [] 0 safeTemps defaultCfg (some true) (fun _ => true)).fst
      ≠ some OutletCmd.on := by
  refine ⟨(c3_update_control_emission [] 0 safeTemps defaultCfg (some true)
      (fun _ => true)).2.1.mpr
      ⟨of_decide_eq_true (by with_unfolding_all rfl), rfl⟩, ?_⟩
  exact (c3_update_control_emission [] 0 safeTemps defaultCfg (some true)
      (fun _ => true)).2.2.2 rfl

/-- **C4**. `is_startup_period` is true exactly when at least two history
samples lie within the detection horizon and both the boiler and the
chimney reading are present at the first and last such sample and rose by
at least the configured delta between them; and the spec's two concrete
scenarios evaluate as stated (boiler 30→36 with chimney 100→106 over 90 s
detects startup, boiler 30→34 does not). -/
theorem c4_startup_detection (hist : List Sample) (now : ℚ) (cfg : Cfg) :
    (is_startup_period hist now cfg = true ↔
      2 ≤ (recentSamples hist now cfg).length ∧
      ∃ f l, (recentSamples hist now cfg).head? = some f ∧
        (recentSamples hist now cfg).getLast? = some l ∧
        (∃ fb lb, f.boiler = some fb ∧ l.boiler = some lb ∧
          cfg.startup_temp_increase ≤ lb - fb) ∧
        (∃ fc lc, f.chimney = some fc ∧ l.chimney = some lc ∧
          cfg.startup_temp_increase ≤ lc - fc)) ∧
    is_startup_period [⟨0, some 30, some 100⟩, ⟨90, some 36, some 106⟩] 90
      defaultCfg = true ∧
    is_startup_period [⟨0, some 30, some 100⟩, ⟨90, some 34, some 106⟩] 90
      defaultCfg = false := by
  refine ⟨?_, of_decide_eq_true (by with_unfolding_all rfl),
          of_decide_eq_true (by with_unfolding_all rfl)⟩
  unfold is_startup_period
  by_cases h1 : hist.length < 2
  · have hle : (recentSamples hist now cfg).length ≤ hist.length :=
      List.length_filter_le _ _
    simp only [if_pos h1]
    constructor
    · intro h; simp at h
    · rintro ⟨h2, -⟩; omega
  · simp only [if_neg h1]
    by_cases h2 : (recentSamples hist now cfg).length < 2
    · simp only [if_pos h2]
      constructor
      · intro h; simp at h
      · rintro ⟨h3, -⟩; omega
    · simp only [if_neg h2]
      push_neg at h2
      cases hh : (recentSamples hist now cfg).head? with
      | none =>
        rw [List.head?_eq_none_iff] at hh
        rw [hh] at h2; simp at h2
      | some f =>
        cases hl : (recentSamples hist now cfg).getLast? with
        | none =>
          rw [List.getLast?_eq_none_iff] at hl
          rw [hl] at h2; simp at h2
        | some l =>
          cases hfb : f.boiler <;> cases hlb : l.boiler <;>
            cases hfc : f.chimney <;> cases hlc : l.chimney <;>
              simp_all [ge_iff_le]

/-- **C4** (witness). The startup characterization applied at the spec's
first concrete scenario. -/
theorem c4_startup_detection_witness :
    is_startup_period [⟨0, some 30, some 100⟩, ⟨90, some 36, some 106⟩] 90
      defaultCfg = true :=
  (c4_startup_detection [] 0 defaultCfg).2.1

/-! ## Sensor layer: `sensors/base.py`, `ds18b20.py`, `max31855.py`,
`sensor_manager.py` -/

/-- The per-sensor mutable fields of `BaseSensor` together with whether
the driver object (`self.sensor`) was acquired; `hasProbe` models
`self.sensor is not None`. -/
structure SensorState where
  enabled : Bool
  hasProbe : Bool
  last_reading : Option ℚ
  last_update : Option ℚ
  error_count : ℕ
  max_errors : ℕ
  deriving Repr, DecidableEq

/-- `BaseSensor.__init__` (base.py lines 13-29): no reading yet,
`error_count = 0`, `max_errors = 3`. -/
def initSensor (enabled hasProbe : Bool) : SensorState :=
  { enabled := enabled
    hasProbe := hasProbe
    last_reading := none
    last_update := none
    error_count := 0
    max_errors := 3 }

/-- `BaseSensor.is_available` (base.py lines 69-76):
`self.enabled and self.error_count < self.max_errors`. -/
def is_available (s : SensorState) : Bool :=
  s.enabled && decide (s.error_count < s.max_errors)

/-- `BaseSensor.reset_errors`. -/
def reset_errors (s : SensorState) : SensorState :=
  { s with error_count := 0 }

/-- `BaseSensor.record_error`. -/
def record_error (s : SensorState) : SensorState :=
  { s with error_count := s.error_count + 1 }

/-- `DS18B20Sensor.read_temperature` (ds18b20.py lines 106-126), with the
driver call abstracted as an oracle `hw` (`some t` when
`get_temperature()` returns `t`, `none` when it raises). -/
def ds18b20_read (s : SensorState) (hw : Option ℚ) (now : ℚ) :
    Option ℚ × SensorState :=
  if !s.enabled || !s.hasProbe then (none, s)
  else
    match hw with
    | some t =>
      (some t,
        { reset_errors s with last_reading := some t, last_update := some now })
    | none => (none, record_error s)

/-- `MAX31855Sensor.read_temperature` (max31855.py lines 136-172): a raised
exception or a `None` from `_read_spidev` records an error, a reading above
300 °C is rejected as a fault, and only a plausible reading is stored. -/
def max31855_read (s : SensorState) (hw : Option ℚ) (now : ℚ) :
    Option ℚ × SensorState :=
  if !s.enabled || !s.hasProbe then (none, s)
  else
    match hw with
    | none => (none, record_error s)
    | some t =>
      if t > 300 then (none, record_error s)
      else
        (some t,
          { reset_errors s with last_reading := some t, last_update := some now })

/-- The `'status'` entry of `BaseSensor.get_status` (base.py line 63):
`'ok' if self.last_reading is not None else 'error'`. -/
def statusField (s : SensorState) : String :=
  match s.last_reading with
  | some _ => "ok"
  | none => "error"

/-- The per-sensor branch of `SensorManager.read_all` (sensor_manager.py
lines 121-134): an available sensor is read, an unavailable one
contributes `None` without `read_temperature` being called. -/
def read_all_entry (s : SensorState) (hw : Option ℚ) (now : ℚ) :
    Option ℚ × SensorState :=
  if is_available s then ds18b20_read s hw now else (none, s)

/-- Run a sequence of read attempts (each an oracle outcome with its
wall-clock time) through a read function, keeping the evolving state. -/
def runReads (step : SensorState → Option ℚ → ℚ → Option ℚ × SensorState)
    (s : SensorState) (events : List (Option ℚ × ℚ)) : SensorState :=
  events.foldl (fun st e => (step st e.fst e.snd).snd) s

/-- Number of consecutive failed attempts at the tail of the sequence
(reset to zero by every success): the spec's "consecutive reads fail". -/
def trailingFails (events : List (Option ℚ × ℚ)) : ℕ :=
  events.foldl (fun n e => match e.fst with | some _ => 0 | none => n + 1) 0

theorem ds18b20_read_pres (s : SensorState) (hw : Option ℚ) (now : ℚ) :
    (ds18b20_read s hw now).snd.enabled = s.enabled ∧
    (ds18b20_read s hw now).snd.hasProbe = s.hasProbe ∧
    (ds18b20_read s hw now).snd.max_errors = s.max_errors := by
  unfold ds18b20_read reset_errors record_error
  cases hs : (!s.enabled || !s.hasProbe) <;> cases hw <;> simp

theorem runReads_ds_pres (s : SensorState) (events : List (Option ℚ × ℚ)) :
    (runReads ds18b20_read s events).enabled = s.enabled ∧
    (runReads ds18b20_read s events).hasProbe = s.hasProbe ∧
    (runReads ds18b20_read s events).max_errors = s.max_errors := by
  induction events generalizing s with
  | nil => exact ⟨rfl, rfl, rfl⟩
  | cons e rest ih =>
    have h1 := ds18b20_read_pres s e.fst e.snd
    have h2 := ih (ds18b20_read s e.fst e.snd).snd
    unfold runReads at h2 ⊢
    simp only [List.foldl_cons]
    exact ⟨h2.1.trans h1.1, h2.2.1.trans h1.2.1, h2.2.2.trans h1.2.2⟩

theorem runReads_cons (step : SensorState → Option ℚ → ℚ → Option ℚ × SensorState)
    (s : SensorState) (e : Option ℚ × ℚ) (rest : List (Option ℚ × ℚ)) :
    runReads step s (e :: rest) = runReads step (step s e.fst e.snd).snd rest := rfl

/-- For an enabled sensor with an acquired probe, the consecutive-error
counter after a run of reads is the fold of "reset on success, increment
on failure" over the attempts. -/
theorem runReads_ds_error_count (events : List (Option ℚ × ℚ)) (s : SensorState)
    (he : s.enabled = true) (hp : s.hasProbe = true) :
    (runReads ds18b20_read s events).error_count =
      events.foldl (fun m e => match e.fst with | some _ => 0 | none => m + 1)
        s.error_count := by
  induction events generalizing s with
  | nil => rfl
  | cons e rest ih =>
    obtain ⟨hw, tm⟩ := e
    rw [runReads_cons, List.foldl_cons]
    cases hw with
    | some t =>
      have hstep : (ds18b20_read s (some t) tm).snd =
          { reset_errors s with last_reading := some t, last_update := some tm } := by
        unfold ds18b20_read
        simp [he, hp]
      rw [hstep]
      exact ih _ he hp
    | none =>
      have hstep : (ds18b20_read s none tm).snd = record_error s := by
        unfold ds18b20_read
        simp [he, hp]
      rw [hstep]
      exact ih _ he hp

theorem runReads_nil (step : SensorState → Option ℚ → ℚ → Option ℚ × SensorState)
    (s : SensorState) : runReads step s [] = s := rfl

theorem runReads_append (step : SensorState → Option ℚ → ℚ → Option ℚ × SensorState)
    (s : SensorState) (l1 l2 : List (Option ℚ × ℚ)) :
    runReads step s (l1 ++ l2) = runReads step (runReads step s l1) l2 := by
  unfold runReads
  rw [List.foldl_append]

/-- **C5**. `is_available` is `enabled ∧ error_count < 3` at every point
of every read sequence; for an enabled sensor the error counter equals
the number of consecutive trailing failures, so availability is lost
exactly when three consecutive reads fail, and one successful read resets
the counter to zero, records `last_update`, and restores availability. -/
theorem c5_sensor_availability (e p : Bool) (events : List (Option ℚ × ℚ))
    (t now : ℚ) :
    (is_available (runReads ds18b20_read (initSensor e p) events) = true ↔
      e = true ∧
        (runReads ds18b20_read (initSensor e p) events).error_count < 3) ∧
    ((runReads ds18b20_read (initSensor true true) events).error_count =
      trailingFails events) ∧
    (is_available (runReads ds18b20_read (initSensor true true) events) = true ↔
      trailingFails events < 3) ∧
    ((runReads ds18b20_read (initSensor true true)
        (events ++ [(none, now)])).error_count = trailingFails events + 1) ∧
    ((runReads ds18b20_read (initSensor true true)
        (events ++ [(some t, now)])).error_count = 0) ∧
    ((runReads ds18b20_read (initSensor true true)
        (events ++ [(some t, now)])).last_update = some now) ∧
    (is_available (runReads ds18b20_read (initSensor true true)
        (events ++ [(some t, now)])) = true) := by
  have hpres := runReads_ds_pres (initSensor e p) events
  have hpres2 := runReads_ds_pres (initSensor true true) events
  have he1 : (runReads ds18b20_read (initSensor e p) events).enabled = e := hpres.1
  have hm1 : (runReads ds18b20_read (initSensor e p) events).max_errors = 3 :=
    hpres.2.2
  have he2 : (runReads ds18b20_read (initSensor true true) events).enabled
      = true := hpres2.1
  have hp2 : (runReads ds18b20_read (initSensor true true) events).hasProbe
      = true := hpres2.2.1
  have hm2 : (runReads ds18b20_read (initSensor true true) events).max_errors
      = 3 := hpres2.2.2
  have hcount : (runReads ds18b20_read (initSensor true true) events).error_count
      = trailingFails events :=
    runReads_ds_error_count events (initSensor true true) rfl rfl
  have hsucc : ds18b20_read (runReads ds18b20_read (initSensor true true) events)
      (some t) now =
      (some t,
        { reset_errors (runReads ds18b20_read (initSensor true true) events) with
            last_reading := some t, last_update := some now }) := by
    simp [ds18b20_read, he2, hp2]
  have hfail : ds18b20_read (runReads ds18b20_read (initSensor true true) events)
      none now =
      (none, record_error (runReads ds18b20_read (initSensor true true) events)) := by
    simp [ds18b20_read, he2, hp2]
  refine ⟨?_, hcount, ?_, ?_, ?_, ?_, ?_⟩
  · unfold is_available
    rw [he1, hm1]
    simp
  · unfold is_available
    rw [he2, hm2, hcount]
    simp
  · rw [runReads_append, runReads_cons, runReads_nil]
    rw [show ((none, now) : Option ℚ × ℚ).fst = none from rfl,
        show ((none, now) : Option ℚ × ℚ).snd = now from rfl, hfail]
    simp [record_error, hcount]
  · rw [runReads_append, runReads_cons, runReads_nil]
    rw [show ((some t, now) : Option ℚ × ℚ).fst = some t from rfl,
        show ((some t, now) : Option ℚ × ℚ).snd = now from rfl, hsucc]
    simp [reset_errors]
  · rw [runReads_append, runReads_cons, runReads_nil]
    rw [show ((some t, now) : Option ℚ × ℚ).fst = some t from rfl,
        show ((some t, now) : Option ℚ × ℚ).snd = now from rfl, hsucc]
  · rw [runReads_append, runReads_cons, runReads_nil]
    rw [show ((some t, now) : Option ℚ × ℚ).fst = some t from rfl,
        show ((some t, now) : Option ℚ × ℚ).snd = now from rfl, hsucc]
    simp [is_available, reset_errors, he2, hm2]

/-- **C5** (witness). Three consecutive failures make the sensor
unavailable; one subsequent success restores it. -/
theorem c5_sensor_availability_witness :
    is_available (runReads ds18b20_read (initSensor true true)
      [(none, 0), (none, 1), (none, 2)]) = false ∧
    is_available (runReads ds18b20_read (initSensor true true)
      ([(none, 0), (none, 1), (none, 2)] ++ [(some 55, 3)])) = true := by
  constructor
  · have h := (c5_sensor_availability true true [(none, 0), (none, 1), (none, 2)]
      55 3).2.2.1
    cases hb : is_available (runReads ds18b20_read (initSensor true true)
        [(none, 0), (none, 1), (none, 2)]) with
    | false => rfl
    | true =>
      have := h.mp hb
      have ht : trailingFails [((none : Option ℚ), (0 : ℚ)), (none, 1), (none, 2)]
          = 3 := rfl
      omega
  · exact (c5_sensor_availability true true [(none, 0), (none, 1), (none, 2)]
      55 3).2.2.2.2.2.2

/-- The sensor state after three consecutive failed reads: error count 3,
no longer available. -/
def deadSensor : SensorState :=
  runReads ds18b20_read (initSensor true true) [(none, 0), (none, 1), (none, 2)]

/-- **C6**. Once a sensor has crossed the error threshold,
`SensorManager.read_all` never calls `read_temperature` on it again: its
snapshot reading stays `None` and its state — the error counter included —
is frozen for every further tick, even when the underlying probe would
deliver a valid value (a direct `read_temperature`, which `read_all` never
performs on it, would succeed and restore availability). The claimed
self-healing through `read_all` therefore never happens. -/
theorem c6_read_all_never_heals :
    is_available deadSensor = false ∧
    (∀ (hw : Option ℚ) (now : ℚ),
      read_all_entry deadSensor hw now = (none, deadSensor)) ∧
    (∀ ticks : List (Option ℚ × ℚ),
      runReads read_all_entry deadSensor ticks = deadSensor) ∧
    (ds18b20_read deadSensor (some 55) 3).fst = some 55 ∧
    is_available (ds18b20_read deadSensor (some 55) 3).snd = true := by
  have hdead : is_available deadSensor = false :=
    of_decide_eq_true (by with_unfolding_all rfl)
  have hfrozen : ∀ (hw : Option ℚ) (now : ℚ),
      read_all_entry deadSensor hw now = (none, deadSensor) := by
    intro hw now
    unfold read_all_entry
    rw [hdead]
    simp
  refine ⟨hdead, hfrozen, ?_,
    of_decide_eq_true (by with_unfolding_all rfl),
    of_decide_eq_true (by with_unfolding_all rfl)⟩
  intro ticks
  induction ticks with
  | nil => rfl
  | cons e rest ih =>
    rw [runReads_cons, hfrozen e.fst e.snd]
    exact ih

/-- A read attempt whose oracle outcome the MAX31855 code accepts:
a value was returned and it passes the ≤ 300 °C plausibility check. -/
def ValidRead (e : Option ℚ × ℚ) : Prop :=
  ∃ t, e.fst = some t ∧ t ≤ 300

theorem max31855_read_keeps (s : SensorState) (hw : Option ℚ) (now : ℚ)
    (h : s.last_reading ≠ none) :
    (max31855_read s hw now).snd.last_reading ≠ none := by
  unfold max31855_read record_error reset_errors
  cases hg : (!s.enabled || !s.hasProbe) <;> cases hw <;> simp_all
  split <;> simp_all

theorem runReads_max_keeps (events : List (Option ℚ × ℚ)) (s : SensorState)
    (h : s.last_reading ≠ none) :
    (runReads max31855_read s events).last_reading ≠ none := by
  induction events generalizing s with
  | nil => exact h
  | cons e rest ih =>
    rw [runReads_cons]
    exact ih _ (max31855_read_keeps s e.fst e.snd h)

/-- For an enabled MAX31855 sensor with an acquired driver, no stored
reading exists after a run of reads exactly when none existed before and
no attempt in the run was accepted. -/
theorem runReads_max_none_iff (events : List (Option ℚ × ℚ)) (s : SensorState)
    (he : s.enabled = true) (hp : s.hasProbe = true) :
    ((runReads max31855_read s events).last_reading = none ↔
      s.last_reading = none ∧ ∀ e ∈ events, ¬ ValidRead e) := by
  induction events generalizing s with
  | nil => simp [runReads_nil]
  | cons e rest ih =>
    obtain ⟨hw, tm⟩ := e
    rw [runReads_cons]
    cases hw with
    | none =>
      have hstep : (max31855_read s none tm).snd = record_error s := by
        simp [max31855_read, he, hp]
      rw [hstep]
      have := ih (record_error s) he hp
      rw [this]
      simp [record_error, ValidRead]
    | some v =>
      by_cases hv : v > 300
      · have hstep : (max31855_read s (some v) tm).snd = record_error s := by
          simp [max31855_read, he, hp, hv]
        rw [hstep]
        have := ih (record_error s) he hp
        rw [this]
        have hnv : ¬ ValidRead ((some v, tm) : Option ℚ × ℚ) := by
          rintro ⟨u, hu, hle⟩
          simp only [Option.some.injEq] at hu
          subst hu
          exact absurd hle (not_le.mpr hv)
        simp [record_error, hnv]
      · have hstep : (max31855_read s (some v) tm).snd =
            { reset_errors s with last_reading := some v, last_update := some tm } := by
          simp [max31855_read, he, hp, hv]
        rw [hstep]
        have hval : ValidRead ((some v, tm) : Option ℚ × ℚ) :=
          ⟨v, rfl, le_of_not_lt hv⟩
        constructor
        · intro hnone
          exact absurd hnone (runReads_max_keeps rest _ (Option.some_ne_none v))
        · rintro ⟨-, hall⟩
          exact absurd hval (hall _ (List.mem_cons_self _ _))

/-- **C10**. The public status report's `status` field is `'ok'` exactly
when a reading is stored; failed reads never clear a stored reading, so
any sensor with one past success keeps reporting `'ok'` regardless of
later failures, disabling, or exceeding the error threshold; and for a
fresh enabled sensor `'error'` is reported exactly while no read attempt
has ever been accepted. -/
theorem c10_status_field_report (s : SensorState)
    (events : List (Option ℚ × ℚ)) :
    (statusField s = "ok" ↔ s.last_reading ≠ none) ∧
    (s.last_reading ≠ none →
      statusField (runReads max31855_read s events) = "ok") ∧
    (statusField (runReads max31855_read (initSensor true true) events)
        = "error" ↔ ∀ e ∈ events, ¬ ValidRead e) := by
  have hok : ∀ u : SensorState, statusField u = "ok" ↔ u.last_reading ≠ none := by
    intro u
    unfold statusField
    cases u.last_reading <;> simp
  have herr : ∀ u : SensorState, statusField u = "error" ↔ u.last_reading = none := by
    intro u
    unfold statusField
    cases u.last_reading <;> simp
  refine ⟨hok s, ?_, ?_⟩
  · intro h
    exact (hok _).mpr (runReads_max_keeps events s h)
  · rw [herr _, runReads_max_none_iff events (initSensor true true) rfl rfl]
    simp [initSensor]

/-- **C10** (witness). A sensor with one good 80 °C read followed by three
failures is no longer available yet still reports `'ok'`. -/
theorem c10_status_field_report_witness :
    statusField (runReads max31855_read
      (max31855_read (initSensor true true) (some 80) 0).snd
      [(none, 1), (none, 2), (none, 3)]) = "ok" ∧
    is_available (runReads max31855_read
      (max31855_read (initSensor true true) (some 80) 0).snd
      [(none, 1), (none, 2), (none, 3)]) = false := by
  constructor
  · exact (c10_status_field_report
      (max31855_read (initSensor true true) (some 80) 0).snd
      [(none, 1), (none, 2), (none, 3)]).2.1
      (by with_unfolding_all decide)
  · exact of_decide_eq_true (by with_unfolding_all rfl)

/-! ## Actuator controller: `controllers/sonoff_controller.py` -/

/-- A Tasmota JSON reply, abstracted to its `POWER` field
(`None` when the field is absent). -/
structure TasmotaReply where
  power : Option String
  deriving Repr, DecidableEq

/-- `result.get("POWER", "").upper()` as used by `turn_on`, `turn_off`,
`get_status` and `toggle`. -/
def powerWord (r : TasmotaReply) : String :=
  (r.power.getD "").toUpper

/-- Outcome of one HTTP attempt inside `_send_command`'s retry loop. -/
inductive HttpOutcome
  | ok (r : TasmotaReply)
  | timedOut
  | connFailed
  | httpRejected
  | failedOther
  deriving Repr, DecidableEq

/-- The mutable fields of `SonoffController`; `retry_attempts` is clamped
to `[1,10]` at construction, `allow_simulation` comes from configuration. -/
structure SonoffState where
  ip_configured : Bool
  is_connected : Bool
  last_status : Option Bool
  last_update : Option ℚ
  offline_mode : Bool
  simulated_state : Bool
  retry_attempts : ℕ
  allow_simulation : Bool
  deriving Repr, DecidableEq

/-- The retry loop of `_send_command` (sonoff_controller.py lines 85-122):
the network oracle `net` gives attempt `i`'s outcome; a timeout or a
connection failure is retried while attempts remain, an HTTP rejection or
an unexpected failure stops retrying, a success returns the reply. -/
def sendLoop (net : ℕ → HttpOutcome) (i : ℕ) : ℕ → Option TasmotaReply
  | 0 => none
  | fuel + 1 =>
    match net i with
    | .ok r => some r
    | .timedOut => sendLoop net (i + 1) fuel
    | .connFailed => sendLoop net (i + 1) fuel
    | .httpRejected => none
    | .failedOther => none

/-- `SonoffController._send_command` (lines 68-125): returns `None` at
once in offline mode; otherwise runs the retry loop; on the first
successful response the code clears `offline_mode` when
`offline_mode and allow_simulation` holds — a branch only reachable with
`offline_mode` false. -/
def send_command (s : SonoffState) (net : ℕ → HttpOutcome) :
    Option TasmotaReply × SonoffState :=
  if s.offline_mode then (none, s)
  else
    match sendLoop net 1 s.retry_attempts with
    | some r =>
      if s.offline_mode && s.allow_simulation then
        (some r, { s with offline_mode := false })
      else (some r, s)
    | none => (none, s)

/-- `SonoffController.connect` (lines 127-165). -/
def connect (s : SonoffState) (net : ℕ → HttpOutcome) : Bool × SonoffState :=
  if s.offline_mode then (false, s)
  else if !s.ip_configured then (false, { s with offline_mode := true })
  else
    match send_command s net with
    | (some _, s1) => (true, { s1 with is_connected := true, offline_mode := false })
    | (none, s1) => (false, { s1 with is_connected := false, offline_mode := true })

/-- `SonoffController.turn_on` (lines 167-220). -/
def turn_on (s : SonoffState) (net : ℕ → HttpOutcome) (now : ℚ) :
    Bool × SonoffState :=
  if s.offline_mode then
    if s.allow_simulation then
      (true, { s with simulated_state := true, last_status := some true,
                      last_update := some now })
    else (false, s)
  else
    match send_command s net with
    | (some r, s1) =>
      if powerWord r = "ON" then
        (true, { s1 with last_status := some true, last_update := some now,
                         is_connected := true })
      else
        (true, { s1 with last_status := some true, last_update := some now })
    | (none, s1) =>
      if s1.allow_simulation then
        (true, { s1 with is_connected := false, offline_mode := true,
                         simulated_state := true, last_status := some true,
                         last_update := some now })
      else (false, { s1 with is_connected := false })

/-- `SonoffController.turn_off` (lines 222-275). -/
def turn_off (s : SonoffState) (net : ℕ → HttpOutcome) (now : ℚ) :
    Bool × SonoffState :=
  if s.offline_mode then
    if s.allow_simulation then
      (true, { s with simulated_state := false, last_status := some false,
                      last_update := some now })
    else (false, s)
  else
    match send_command s net with
    | (some r, s1) =>
      if powerWord r = "OFF" then
        (true, { s1 with last_status := some false, last_update := some now,
                         is_connected := true })
      else
        (true, { s1 with last_status := some false, last_update := some now })
    | (none, s1) =>
      if s1.allow_simulation then
        (true, { s1 with is_connected := false, offline_mode := true,
                         simulated_state := false, last_status := some false,
                         last_update := some now })
      else (false, { s1 with is_connected := false })

/-- `SonoffController.get_status` (lines 277-319). -/
def get_status (s : SonoffState) (net : ℕ → HttpOutcome) (now : ℚ) :
    Option Bool × SonoffState :=
  if s.offline_mode then
    if s.allow_simulation then (some s.simulated_state, s)
    else (none, s)
  else
    match send_command s net with
    | (some r, s1) =>
      if powerWord r = "ON" ∨ powerWord r = "OFF" then
        (some (powerWord r = "ON"),
          { s1 with last_status := some (powerWord r = "ON"),
                    last_update := some now, is_connected := true })
      else (s1.last_status, s1)
    | (none, s1) =>
      if s1.allow_simulation then
        (match s1.last_status with
         | some b => some b
         | none => some s1.simulated_state,
         { s1 with is_connected := false, offline_mode := true })
      else (none, { s1 with is_connected := false })

/-- `SonoffController.set_state` (lines 321-334). -/
def set_state (s : SonoffState) (st : Bool) (net : ℕ → HttpOutcome) (now : ℚ) :
    Bool × SonoffState :=
  if st then turn_on s net now else turn_off s net now

/-- `SonoffController.toggle` (lines 336-386). Note that in Live mode a
reply without a recognized power word returns `True` while leaving
`last_status` and `last_update` untouched. -/
def toggle (s : SonoffState) (net : ℕ → HttpOutcome) (now : ℚ) :
    Bool × SonoffState :=
  if s.offline_mode then
    if s.allow_simulation then
      (true, { s with simulated_state := !s.simulated_state,
                      last_status := some (!s.simulated_state),
                      last_update := some now })
    else (false, s)
  else
    match send_command s net with
    | (some r, s1) =>
      if powerWord r = "ON" ∨ powerWord r = "OFF" then
        (true, { s1 with last_status := some (powerWord r = "ON"),
                         last_update := some now, is_connected := true })
      else (true, s1)
    | (none, s1) =>
      if s1.allow_simulation then
        (true, { s1 with is_connected := false, offline_mode := true,
                         simulated_state := !s1.simulated_state,
                         last_status := some (!s1.simulated_state),
                         last_update := some now })
      else (false, { s1 with is_connected := false })

theorem sendLoop_none (net : ℕ → HttpOutcome)
    (hnet : ∀ i r, net i ≠ HttpOutcome.ok r) :
    ∀ i fuel, sendLoop net i fuel = none := by
  intro i fuel
  induction fuel generalizing i with
  | zero => rfl
  | succ n ih =>
    unfold sendLoop
    cases hni : net i with
    | ok r => exact absurd hni (hnet i r)
    | timedOut => exact ih (i + 1)
    | connFailed => exact ih (i + 1)
    | httpRejected => rfl
    | failedOther => rfl

theorem send_command_live (s : SonoffState) (net : ℕ → HttpOutcome)
    (h : s.offline_mode = false) :
    send_command s net = (sendLoop net 1 s.retry_attempts, s) := by
  unfold send_command
  cases hr : sendLoop net 1 s.retry_attempts <;> simp [h, hr]

/-- **C7**. With simulation not permitted and every network attempt
failing, `turn_on` and `turn_off` always report failure and `get_status`
always reports absent — and `allow_simulation` stays false afterwards, so
this holds along every call sequence. -/
theorem c7_no_simulation_no_fabrication (s : SonoffState)
    (net : ℕ → HttpOutcome) (now : ℚ)
    (hsim : s.allow_simulation = false)
    (hnet : ∀ i r, net i ≠ HttpOutcome.ok r) :
    (turn_on s net now).fst = false ∧
    (turn_off s net now).fst = false ∧
    (get_status s net now).fst = none ∧
    (turn_on s net now).snd.allow_simulation = false ∧
    (turn_off s net now).snd.allow_simulation = false ∧
    (get_status s net now).snd.allow_simulation = false := by
  have hsc : send_command s net = (none, s) := by
    unfold send_command
    cases hoff : s.offline_mode
    · simp [hoff, sendLoop_none net hnet]
    · simp [hoff]
  cases hoff : s.offline_mode <;>
    refine ⟨?_, ?_, ?_, ?_, ?_, ?_⟩ <;>
      simp [turn_on, turn_off, get_status, hoff, hsc, hsim]

/-- **C7** (witness). A concrete no-simulation controller against a
permanently timing-out device: commands fail, status is absent. -/
theorem c7_no_simulation_no_fabrication_witness :
    (turn_on ⟨true, false, none, none, false, false, 3, false⟩
      (fun _ => HttpOutcome.timedOut) 0).fst = false ∧
    (get_status ⟨true, false, none, none, false, false, 3, false⟩
      (fun _ => HttpOutcome.timedOut) 0).fst = none := by
  have h := c7_no_simulation_no_fabrication
    ⟨true, false, none, none, false, false, 3, false⟩
    (fun _ => HttpOutcome.timedOut) 0 rfl
    (fun i r hir => HttpOutcome.noConfusion hir)
  exact ⟨h.1, h.2.2.1⟩

/-- **C8**. Once `offline_mode` is set, it is permanent: `_send_command`
returns `None` without attempting the device and `connect` returns
`False` at once, so no command or status attempt ever reaches a recovered
device, and every public call leaves `offline_mode` true — regardless of
what the network would answer. Moreover `_send_command` never changes the
controller state at all, so its internal offline-reset branch never
fires. -/
theorem c8_offline_mode_is_permanent (s : SonoffState)
    (net : ℕ → HttpOutcome) (now : ℚ) (hoff : s.offline_mode = true) :
    send_command s net = (none, s) ∧
    connect s net = (false, s) ∧
    (turn_on s net now).snd.offline_mode = true ∧
    (turn_off s net now).snd.offline_mode = true ∧
    (toggle s net now).snd.offline_mode = true ∧
    (get_status s net now).snd.offline_mode = true ∧
    (∀ u : SonoffState, (send_command u net).snd = u) := by
  have hdead : ∀ u : SonoffState, (send_command u net).snd = u := by
    intro u
    unfold send_command
    cases hu : u.offline_mode <;>
      cases hr : sendLoop net 1 u.retry_attempts <;> simp [hu, hr]
  refine ⟨?_, ?_, ?_, ?_, ?_, ?_, hdead⟩ <;>
    cases hsim : s.allow_simulation <;>
      simp [send_command, connect, turn_on, turn_off, toggle, get_status,
        hoff, hsim]

/-- **C8** (witness). A controller stuck in simulated-offline mode against
a device that now answers `ON` to every request: `connect` still fails and
`get_status` leaves it offline. -/
theorem c8_offline_mode_is_permanent_witness :
    connect ⟨true, false, none, none, true, true, 3, true⟩
      (fun _ => HttpOutcome.ok ⟨some "ON"⟩) =
      (false, ⟨true, false, none, none, true, true, 3, true⟩) ∧
    (get_status ⟨true, false, none, none, true, true, 3, true⟩
      (fun _ => HttpOutcome.ok ⟨some "ON"⟩) 0).snd.offline_mode = true := by
  have h := c8_offline_mode_is_permanent
    ⟨true, false, none, none, true, true, 3, true⟩
    (fun _ => HttpOutcome.ok ⟨some "ON"⟩) 0 rfl
  exact ⟨h.2.1, h.2.2.2.2.2.1⟩

/-- A live controller with no cached state yet. -/
def liveState : SonoffState :=
  { ip_configured := true
    is_connected := true
    last_status := none
    last_update := none
    offline_mode := false
    simulated_state := false
    retry_attempts := 3
    allow_simulation := false }

/-- **C9** (counterexample). In Live mode, a `toggle` whose reply carries
no recognized power word reports success yet leaves both `last_update`
and the cached reported state untouched — refuting the claim that every
successful state-changing call updates them. -/
theorem c9_toggle_skips_cache_counterexample :
    (toggle liveState (fun _ => HttpOutcome.ok ⟨none⟩) 5).fst = true ∧
    (toggle liveState (fun _ => HttpOutcome.ok ⟨none⟩) 5).snd.last_update
      = none ∧
    (toggle liveState (fun _ => HttpOutcome.ok ⟨none⟩) 5).snd.last_status
      = none := by
  refine ⟨?_, ?_, ?_⟩ <;> exact of_decide_eq_true (by with_unfolding_all rfl)

/-- **C9** (amended). Every successful `turn_on`, `turn_off` and
`set_state` — in Live or simulated-offline mode, confirmed or unconfirmed
reply — updates `last_update` and the cached reported state; a successful
`toggle` does so as well except when a Live reply lacks a recognized
power word, in which case it reports success with the state (cache
included) completely unchanged. -/
theorem c9_success_updates_cache (s : SonoffState) (net : ℕ → HttpOutcome)
    (now : ℚ) (b : Bool) :
    ((turn_on s net now).fst = true →
      (turn_on s net now).snd.last_update = some now ∧
      (turn_on s net now).snd.last_status = some true) ∧
    ((turn_off s net now).fst = true →
      (turn_off s net now).snd.last_update = some now ∧
      (turn_off s net now).snd.last_status = some false) ∧
    ((set_state s b net now).fst = true →
      (set_state s b net now).snd.last_update = some now ∧
      (set_state s b net now).snd.last_status = some b) ∧
    ((toggle s net now).fst = true →
      ((toggle s net now).snd.last_update = some now ∧
        (toggle s net now).snd.last_status ≠ none) ∨
      ((toggle s net now).snd = s ∧ s.offline_mode = false ∧
        ∃ r, sendLoop net 1 s.retry_attempts = some r ∧
          powerWord r ≠ "ON" ∧ powerWord r ≠ "OFF")) := by
  have hone : (turn_on s net now).fst = true →
      (turn_on s net now).snd.last_update = some now ∧
      (turn_on s net now).snd.last_status = some true := by
    cases hoff : s.offline_mode with
    | true => cases hsim : s.allow_simulation <;> simp [turn_on, hoff, hsim]
    | false =>
      have hsc := send_command_live s net hoff
      cases hr : sendLoop net 1 s.retry_attempts with
      | some r =>
        by_cases hw : powerWord r = "ON" <;>
          simp [turn_on, hoff, hsc, hr, hw]
      | none =>
        cases hsim : s.allow_simulation <;>
          simp [turn_on, hoff, hsc, hr, hsim]
  have htwo : (turn_off s net now).fst = true →
      (turn_off s net now).snd.last_update = some now ∧
      (turn_off s net now).snd.last_status = some false := by
    cases hoff : s.offline_mode with
    | true => cases hsim : s.allow_simulation <;> simp [turn_off, hoff, hsim]
    | false =>
      have hsc := send_command_live s net hoff
      cases hr : sendLoop net 1 s.retry_attempts with
      | some r =>
        by_cases hw : powerWord r = "OFF" <;>
          simp [turn_off, hoff, hsc, hr, hw]
      | none =>
        cases hsim : s.allow_simulation <;>
          simp [turn_off, hoff, hsc, hr, hsim]
  refine ⟨hone, htwo, ?_, ?_⟩
  · cases b <;> simp [set_state] <;> assumption
  · cases hoff : s.offline_mode with
    | true =>
      cases hsim : s.allow_simulation <;> simp [toggle, hoff, hsim]
    | false =>
      have hsc := send_command_live s net hoff
      cases hr : sendLoop net 1 s.retry_attempts with
      | some r =>
        by_cases hw : powerWord r = "ON" ∨ powerWord r = "OFF"
        · simp [toggle, hoff, hsc, hr, hw]
        · push_neg at hw
          rintro -
          refine Or.inr ⟨?_, rfl, r, rfl, hw.1, hw.2⟩
          simp [toggle, hoff, hsc, hr, hw.1, hw.2]
      | none =>
        cases hsim : s.allow_simulation <;>
          simp [toggle, hoff, hsc, hr, hsim]

/-- **C9** (witness). The amended update rule applied at a concrete live
state whose `turn_on` receives a confirming `ON` reply. -/
theorem c9_success_updates_cache_witness :
    (turn_on liveState (fun _ => HttpOutcome.ok ⟨some "ON"⟩) 7).snd.last_update
        = some 7 ∧
    (turn_on liveState (fun _ => HttpOutcome.ok ⟨some "ON"⟩) 7).snd.last_status
        = some true :=
  (c9_success_updates_cache liveState (fun _ => HttpOutcome.ok ⟨some "ON"⟩)
      7 true).1
    (of_decide_eq_true (by with_unfolding_all rfl))

end RpiTemp
